import Mathlib

/-!
Verification of the dotflow core against its specification.

This file gives a shallow embedding, in Lean 4, of the dotflow graph model,
validators, theme table, mutation API (`_create_node` / `_create_edge` /
`cluster`), natural-language operator API, textual DSL parser, and DOT
serializer, translated from the Python sources
(`dotflow/core/interpreter.py`, `dotflow/core/models.py`,
`dotflow/core/themes.py`, `dotflow/utils/validators.py`,
`dotflow/api/dsl.py`, `dotflow/api/natural.py`).

Conventions of the embedding:
- Python in-place mutation with exceptions is modelled by operations of type
  `DotInterpreter → Except PyErr Unit × DotInterpreter`: the returned state is
  the object's state at normal return or at the point the exception escaped.
- Python `dict` (insertion ordered, updating an existing key keeps its
  position) is modelled by an association list with `dict_insert`.
- Character classes (`\w`, `\s`, `.upper()`) are modelled at their ASCII
  meaning; all inputs appearing in the claims are ASCII.
- Python floats stored in `NodeStyle.width` / `NodeStyle.height` only flow
  into f-strings; they are modelled by their printed decimal text.
-/

/-! ### Python string primitives -/


/-- Python `\s` (ASCII part): space, tab, newline, carriage return,
vertical tab, form feed. -/
def pyIsSpaceChar (c : Char) : Bool :=
  c = ' ' || c = '\t' || c = '\n' || c = '\r' || c = Char.ofNat 11 || c = Char.ofNat 12

/-- Python `\w` (ASCII part): letters, digits, underscore. -/
def pyIsWordChar (c : Char) : Bool :=
  c.isAlpha || c.isDigit || c = '_'

/-- Python `str.strip()`: drop whitespace from both ends. -/
def py_strip (s : String) : String :=
  let l := s.toList.dropWhile pyIsSpaceChar
  String.mk ((l.reverse.dropWhile pyIsSpaceChar).reverse)

/-- Python `str.strip(',')`: drop commas from both ends. -/
def py_strip_commas (s : String) : String :=
  let l := s.toList.dropWhile (· = ',')
  String.mk ((l.reverse.dropWhile (· = ',')).reverse)

/-- Python `str.strip("'\"")`: drop single/double quotes from both ends
(`'` is written by code point to keep the text plain). -/
def py_strip_quotes (s : String) : String :=
  let isQ : Char → Bool := fun c => c = '"' || c = Char.ofNat 39
  let l := s.toList.dropWhile isQ
  String.mk ((l.reverse.dropWhile isQ).reverse)

/-- Python `s.replace(" ", "")`: remove every space character. -/
def pyRemoveSpaces (s : String) : String :=
  String.mk (s.toList.filter (fun c => ¬ c = ' '))

/-- Python `sep.join(parts)`. -/
def py_join (sep : String) : List String → String
  | [] => ""
  | [x] => x
  | x :: xs => x ++ sep ++ py_join sep xs

/-- Whether a character list begins with another (helper for substring
containment). -/
def chars_lead : List Char → List Char → Bool
  | _, [] => true
  | [], _ :: _ => false
  | h :: ht, n :: nt => h = n && chars_lead ht nt

/-- Substring containment on character lists. -/
def chars_contain : List Char → List Char → Bool
  | [], needle => chars_lead [] needle
  | h :: tl, needle => chars_lead (h :: tl) needle || chars_contain tl needle

/-- Python `needle in hay` for strings (substring containment). -/
def str_contains (hay needle : String) : Bool :=
  chars_contain hay.toList needle.toList

/-- Python `str.upper()` (ASCII). -/
def pyToUpper (s : String) : String :=
  String.mk (s.toList.map Char.toUpper)

/-- Truthiness of a Python `Optional[str]`: `None` and `""` are falsy. -/
def pyTruthyOptStr : Option String → Bool
  | none => false
  | some s => s ≠ ""

/-- Python `label or node_id`. -/
def pyOrElse (o : Option String) (d : String) : String :=
  match o with
  | some x => if x ≠ "" then x else d
  | none => d

/-- Splitting a character list on a separator character (Python
`str.split(sep)` semantics: `n` separators give `n+1` groups). -/
def splitOnChar (c : Char) : List Char → List (List Char)
  | [] => [[]]
  | x :: xs =>
    match splitOnChar c xs with
    | [] => [[]]
    | g :: gs => if x = c then [] :: g :: gs else (x :: g) :: gs

/-- Python `line.startswith("#")`. -/
def py_starts_hash (line : String) : Bool :=
  match line.toList with
  | c :: _ => c = '#'
  | [] => false

/-- Python `text.split("\n")`. -/
def py_split_nl (s : String) : List String :=
  (splitOnChar '\n' s.toList).map String.mk

/-! ### Python dict as an insertion-ordered association list -/


/-- Insert/overwrite like a Python dict: an existing key keeps its position,
a new key is appended. (Keys are unique by construction, so replacing the
first occurrence is the same as replacing the occurrence.) -/
def dict_insert {α : Type} : List (String × α) → String → α → List (String × α)
  | [], k, v => [(k, v)]
  | p :: tl, k, v => if p.1 = k then (k, v) :: tl else p :: dict_insert tl k v

/-- Dict lookup. -/
def dict_get {α : Type} (d : List (String × α)) (k : String) : Option α :=
  (d.find? (fun p => p.1 = k)).map (fun p => p.2)

/-- In-place update of the value stored at a key (models mutating the object
a dict entry points at). -/
def dict_modify {α : Type} (d : List (String × α)) (k : String) (f : α → α) :
    List (String × α) :=
  d.map (fun p => if p.1 = k then (p.1, f p.2) else p)

/-! ### Enumerations (`dotflow/core/models.py`) -/


inductive NodeShape
  | RECTANGLE | ELLIPSE | DIAMOND | CIRCLE | TRIANGLE | HEXAGON
  | COMPONENT | PARALLELOGRAM | ROUNDED_RECTANGLE
  deriving DecidableEq, Repr

def NodeShape.value : NodeShape → String
  | .RECTANGLE => "rect"
  | .ELLIPSE => "ellipse"
  | .DIAMOND => "diamond"
  | .CIRCLE => "circle"
  | .TRIANGLE => "triangle"
  | .HEXAGON => "hexagon"
  | .COMPONENT => "component"
  | .PARALLELOGRAM => "parallelogram"
  | .ROUNDED_RECTANGLE => "rounded"

/-- `NodeShape[name]` lookup by member name, as used by the DSL
(`NodeShape[shape_name]`, `KeyError` → rectangle handled by the caller). -/
def nodeShapeByName (s : String) : Option NodeShape :=
  if s = "RECTANGLE" then some .RECTANGLE
  else if s = "ELLIPSE" then some .ELLIPSE
  else if s = "DIAMOND" then some .DIAMOND
  else if s = "CIRCLE" then some .CIRCLE
  else if s = "TRIANGLE" then some .TRIANGLE
  else if s = "HEXAGON" then some .HEXAGON
  else if s = "COMPONENT" then some .COMPONENT
  else if s = "PARALLELOGRAM" then some .PARALLELOGRAM
  else if s = "ROUNDED_RECTANGLE" then some .ROUNDED_RECTANGLE
  else none

inductive EdgeStyle
  | SOLID | DASHED | DOTTED | BOLD
  deriving DecidableEq, Repr

def EdgeStyle.value : EdgeStyle → String
  | .SOLID => "solid"
  | .DASHED => "dashed"
  | .DOTTED => "dotted"
  | .BOLD => "bold"

inductive Direction
  | TOP_DOWN | LEFT_RIGHT | RIGHT_LEFT | BOTTOM_UP
  deriving DecidableEq, Repr

def Direction.value : Direction → String
  | .TOP_DOWN => "TB"
  | .LEFT_RIGHT => "LR"
  | .RIGHT_LEFT => "RL"
  | .BOTTOM_UP => "BT"

inductive Theme
  | DEFAULT | DARK | COLORFUL | MONOCHROME | BLUE | GREEN
  deriving DecidableEq, Repr

/-! ### Styles -/


/-- `NodeStyle` dataclass. `width`/`height` are Python floats that only ever
reach f-strings; they are carried as their printed text. -/
structure NodeStyle where
  color : String := "black"
  fillcolor : String := "white"
  fontcolor : String := "black"
  fontsize : Nat := 12
  fontname : String := "Arial"
  style : String := "filled"
  width : String := "0.75"
  height : String := "0.5"
  deriving DecidableEq, Repr

/-- Keyword-argument overrides accepted by `_create_node` (the recognized
`NodeStyle` field names; an unknown key would make `NodeStyle(**d)` raise,
which no claim exercises). -/
structure NodeStyleOverride where
  color : Option String := none
  fillcolor : Option String := none
  fontcolor : Option String := none
  fontsize : Option Nat := none
  fontname : Option String := none
  style : Option String := none
  width : Option String := none
  height : Option String := none
  deriving DecidableEq, Repr

/-- `custom_style = theme_style.__dict__.copy(); custom_style.update(kwargs);
NodeStyle(**custom_style)`. -/
def NodeStyle.applyOverrides (t : NodeStyle) (o : NodeStyleOverride) : NodeStyle :=
  { color := o.color.getD t.color
    fillcolor := o.fillcolor.getD t.fillcolor
    fontcolor := o.fontcolor.getD t.fontcolor
    fontsize := o.fontsize.getD t.fontsize
    fontname := o.fontname.getD t.fontname
    style := o.style.getD t.style
    width := o.width.getD t.width
    height := o.height.getD t.height }

/-- The dynamic value stored in `EdgeStyleConfig.style`: the dataclass
annotates it `EdgeStyle`, but Python lets callers store a plain string
through keyword arguments, and `Edge.to_dot` branches on both shapes
(`.strip()` only exists on the string). -/
inductive EdgeStyleVal
  | enum (e : EdgeStyle)
  | str (s : String)
  deriving DecidableEq, Repr

/-- Python truthiness of the stored value. -/
def EdgeStyleVal.truthy : EdgeStyleVal → Bool
  | .enum _ => true
  | .str s => s ≠ ""

/-- `hasattr(value, "value")`: enum members have `.value`, strings do not. -/
def EdgeStyleVal.hasValueAttr : EdgeStyleVal → Bool
  | .enum _ => true
  | .str _ => false

/-- `.value` of the stored edge style (only reached when `hasValueAttr`). -/
def EdgeStyleVal.valueText : EdgeStyleVal → String
  | .enum e => e.value
  | .str s => s

structure EdgeStyleConfig where
  color : String := "black"
  fontcolor : String := "black"
  fontsize : Nat := 10
  arrowhead : String := "arrow"
  arrowtail : Option String := none
  style : EdgeStyleVal := .enum .SOLID
  deriving DecidableEq, Repr

structure EdgeStyleOverride where
  color : Option String := none
  fontcolor : Option String := none
  fontsize : Option Nat := none
  arrowhead : Option String := none
  arrowtail : Option (Option String) := none
  style : Option EdgeStyleVal := none
  deriving DecidableEq, Repr

def EdgeStyleConfig.applyOverrides (t : EdgeStyleConfig) (o : EdgeStyleOverride) :
    EdgeStyleConfig :=
  { color := o.color.getD t.color
    fontcolor := o.fontcolor.getD t.fontcolor
    fontsize := o.fontsize.getD t.fontsize
    arrowhead := o.arrowhead.getD t.arrowhead
    arrowtail := o.arrowtail.getD t.arrowtail
    style := o.style.getD t.style }

/-! ### Exceptions (`dotflow/utils/exceptions.py`, plus Python built-ins) -/


inductive PyErr
  | validationError (msg : String)
  | nodeNotFoundError (msg : String)
  | dslParseError (msg : String)
  | attributeError (msg : String)
  deriving DecidableEq, Repr

instance {e a : Type} [DecidableEq e] [DecidableEq a] : DecidableEq (Except e a) := fun x y =>
  match x, y with
  | .error u, .error v =>
    if h : u = v then .isTrue (by rw [h]) else .isFalse (by intro hc; cases hc; exact h rfl)
  | .ok u, .ok v =>
    if h : u = v then .isTrue (by rw [h]) else .isFalse (by intro hc; cases hc; exact h rfl)
  | .error _, .ok _ => .isFalse (by intro hc; cases hc)
  | .ok _, .error _ => .isFalse (by intro hc; cases hc)

/-! ### Validators (`dotflow/utils/validators.py`) -/


/-- `re.match(r"^[a-zA-Z_]\w*$", s)` on the characters after the first one:
`\w*` then `$`, where Python `$` also matches just before one trailing
newline. -/
def pyIdTail : List Char → Bool
  | [] => true
  | ['\n'] => true
  | c :: rest => pyIsWordChar c && pyIdTail rest

/-- Whether `re.match(r"^[a-zA-Z_]\w*$", s)` succeeds. -/
def pyMatchIdFull (s : String) : Bool :=
  match s.toList with
  | [] => false
  | c :: rest => (c.isAlpha || c = '_') && pyIdTail rest

/-- `if "[" in node_id: node_id = node_id.split("[")[0]`: everything from the
first square bracket on is cut off before validation. -/
def id_before_bracket (node_id : String) : String :=
  if str_contains node_id "[" then
    String.mk (node_id.toList.takeWhile (fun c => ¬ c = '[')) else node_id

def validate_node_id (node_id : String) : Except PyErr Unit :=
  let node_id := id_before_bracket node_id
  if node_id = "" then .error (.validationError "Node ID cannot be empty")
  else if ¬ pyMatchIdFull node_id then
    .error (.validationError ("Invalid node ID: \x27" ++ node_id ++ "\x27. " ++
      "Must start with a letter or underscore and contain only " ++
      "alphanumeric characters and underscores."))
  else .ok ()

def validate_label (label : String) : Except PyErr Unit :=
  if label = "" then .ok ()
  else if label.toList.length > 1000 then
    .error (.validationError "Label too long (max 1000 characters)")
  else if label.toList.contains (Char.ofNat 0) then
    .error (.validationError "Label contains null character")
  else .ok ()

/-! ### Data models (`dotflow/core/models.py`) -/


structure Node where
  id : String
  label : String
  shape : NodeShape
  style : NodeStyle
  deriving DecidableEq, Repr

/-- `html.escape` with default quoting. -/
def html_escape_char (c : Char) : String :=
  if c = '&' then "&amp;"
  else if c = '<' then "&lt;"
  else if c = '>' then "&gt;"
  else if c = '"' then "&quot;"
  else if c = Char.ofNat 39 then "&#x27;"
  else String.mk [c]

def html_escape (s : String) : String :=
  String.join (s.toList.map html_escape_char)

def Node.to_dot (n : Node) : String :=
  let attrs := [
    "label=\"" ++ html_escape n.label ++ "\"",
    "shape=" ++ n.shape.value,
    "color=\"" ++ n.style.color ++ "\"",
    "fillcolor=\"" ++ n.style.fillcolor ++ "\"",
    "fontcolor=\"" ++ n.style.fontcolor ++ "\"",
    "fontsize=" ++ toString n.style.fontsize,
    "fontname=\"" ++ n.style.fontname ++ "\"",
    "style=\"" ++ n.style.style ++ "\"",
    "width=" ++ n.style.width,
    "height=" ++ n.style.height]
  n.id ++ " [" ++ py_strip_commas (py_join ", " attrs) ++ "];"

structure Edge where
  from_node : String
  to_node : String
  label : Option String := none
  style : EdgeStyleConfig := {}
  arrowhead : Option String := some "arrow"
  arrowtail : Option String := none
  deriving DecidableEq, Repr

/-- The first element of `Edge.to_dot`'s attribute list:
`f"style={...}" if self.style.style and self.style.style.strip() and
hasattr(self.style.style, "value") else ""`. Evaluating `.strip()` on an
`EdgeStyle` member raises `AttributeError`. -/
def edgeStyleAttr (v : EdgeStyleVal) : Except PyErr String :=
  if v.truthy then
    match v with
    | .enum _ =>
      .error (.attributeError "\x27EdgeStyle\x27 object has no attribute \x27strip\x27")
    | .str s =>
      if py_strip s ≠ "" && v.hasValueAttr then .ok ("style=" ++ v.valueText)
      else .ok ""
  else .ok ""

def Edge.to_dot (e : Edge) : Except PyErr String :=
  match edgeStyleAttr e.style.style with
  | .error err => .error err
  | .ok first =>
    let attrs := [first]
    let attrs := attrs ++
      (if pyTruthyOptStr e.label then
        ["label=\"" ++ html_escape (e.label.getD "") ++ "\""] else [])
    let attrs := attrs ++
      (if pyTruthyOptStr e.arrowhead then
        ["arrowhead=\"" ++ e.arrowhead.getD "" ++ "\""] else [])
    let attrs := attrs ++
      (if pyTruthyOptStr e.arrowtail then
        ["arrowtail=\"" ++ e.arrowtail.getD "" ++ "\""] else [])
    let attrs := attrs ++ [
      "color=\"" ++ e.style.color ++ "\"",
      "fontcolor=\"" ++ e.style.fontcolor ++ "\"",
      "fontsize=" ++ toString e.style.fontsize]
    .ok (e.from_node ++ " -> " ++ e.to_node ++ " [" ++
      py_strip_commas (py_join ", " attrs) ++ "];")

structure Cluster where
  name : String
  label : String
  nodes : List Node := []
  edges : List Edge := []
  style : List (String × String) := []
  deriving DecidableEq, Repr

/-- The built-in cluster style block (used both as the `Cluster.__init__`
fallback and as the base dict in `DotInterpreter.cluster`). -/
def cluster_default_style : List (String × String) :=
  [("style", "filled"), ("color", "lightgrey"),
   ("fillcolor", "lightgrey:white"), ("gradientangle", "90")]

/-- `Cluster.__init__`: the internal name gets the reserved prefix; an
empty / falsy style dict falls back to the built-in default block. -/
def Cluster.init (name label : String) (style : List (String × String)) : Cluster :=
  { name := "cluster_" ++ name
    label := label
    nodes := []
    edges := []
    style := if style.isEmpty then cluster_default_style else style }

def Cluster.add_node (c : Cluster) (n : Node) : Cluster :=
  { c with nodes := c.nodes ++ [n] }

def Cluster.add_edge (c : Cluster) (e : Edge) : Cluster :=
  { c with edges := c.edges ++ [e] }

def Cluster.to_dot (c : Cluster) : Except PyErr (List String) :=
  let header := ["subgraph " ++ c.name ++ " \x7b", "  label=\"" ++ c.label ++ "\";"]
    ++ c.style.map (fun p => "  " ++ p.1 ++ "=\"" ++ toString p.2 ++ "\";")
    ++ c.nodes.map (fun n => "  " ++ n.to_dot)
  match c.edges.mapM Edge.to_dot with
  | .error e => .error e
  | .ok es => .ok (header ++ es.map (fun l => "  " ++ l) ++ ["\x7d"])

/-! ### Themes (`dotflow/core/themes.py`) -/


structure ThemeConfig where
  bg_color : String
  node_style : NodeStyle
  edge_style : EdgeStyleConfig
  deriving DecidableEq, Repr

namespace ThemeManager

def themes : Theme → ThemeConfig
  | .DEFAULT =>
    { bg_color := "white"
      node_style := { color := "black", fillcolor := "white", fontcolor := "black" }
      edge_style := { color := "black", fontcolor := "black" } }
  | .DARK =>
    { bg_color := "#1a202c"
      node_style := { color := "white", fillcolor := "#2d3748", fontcolor := "white" }
      edge_style := { color := "#cbd5e0", fontcolor := "#cbd5e0" } }
  | .COLORFUL =>
    { bg_color := "#f7fafc"
      node_style := { color := "#2d3748", fillcolor := "#ecc94b", fontcolor := "#2d3748" }
      edge_style := { color := "#4a5568", fontcolor := "#4a5568" } }
  | .BLUE =>
    { bg_color := "#f0f9ff"
      node_style := { color := "#1e40af", fillcolor := "#dbeafe", fontcolor := "#1e3a8a" }
      edge_style := { color := "#3b82f6", fontcolor := "#1e40af" } }
  | .GREEN =>
    { bg_color := "#f0fdf4"
      node_style := { color := "#166534", fillcolor := "#dcfce7", fontcolor := "#166534" }
      edge_style := { color := "#22c55e", fontcolor := "#166534" } }
  | .MONOCHROME =>
    { bg_color := "white"
      node_style := { color := "black", fillcolor := "white", fontcolor := "black" }
      edge_style := { color := "black", fontcolor := "black" } }

/-- `_themes.get(theme, _themes[Theme.DEFAULT])`: total over the enum. -/
def get_theme_config (t : Theme) : ThemeConfig := themes t

end ThemeManager

/-! ### The interpreter state (`dotflow/core/interpreter.py`) -/


/-- `DotInterpreter`: the graph model plus the cached natural-language API
state (`NaturalLanguageAPI._last_node` / `_pending_label`, one cached
instance per interpreter). -/

structure DotInterpreter where
  name : String
  theme : Theme
  direction : Direction
  nodes : List (String × Node)
  edges : List Edge
  clusters : List (String × Cluster)
  currentCluster : Option String
  themeConfig : ThemeConfig
  lastNode : Option String
  pendingLabel : Option String
  graphAttrs : List (String × String)
  deriving DecidableEq, Repr

/-- `DotInterpreter.__init__` (via the `create_flow` convenience wrapper). -/
def create_flow (name : String := "flow") (theme : Theme := .DEFAULT)
    (direction : Direction := .TOP_DOWN) : DotInterpreter :=
  let cfg := ThemeManager.get_theme_config theme
  { name := name
    theme := theme
    direction := direction
    nodes := []
    edges := []
    clusters := []
    currentCluster := none
    themeConfig := cfg
    lastNode := none
    pendingLabel := none
    graphAttrs := [("bgcolor", cfg.bg_color), ("rankdir", direction.value)] }

/-- `if self._current_cluster and self._current_cluster in self.clusters`:
the active cluster, when the name is truthy and still mapped. -/
def DotInterpreter.active_cluster (s : DotInterpreter) : Option String :=
  match s.currentCluster with
  | some c => if c ≠ "" && (dict_get s.clusters c).isSome then some c else none
  | none => none

/-- Endpoint resolution used by `_create_edge`: the id is searched in the
top-level node dict and in every cluster's node list. -/
def DotInterpreter.node_exists_anywhere (s : DotInterpreter) (id : String) : Bool :=
  (dict_get s.nodes id).isSome ||
    s.clusters.any (fun p => p.2.nodes.any (fun n => n.id = id))

/-- `DotInterpreter._create_node`. -/
def DotInterpreter.create_node (s : DotInterpreter) (node_id label : String)
    (shape : NodeShape) (kwargs : NodeStyleOverride := {}) :
    Except PyErr Unit × DotInterpreter :=
  let nid := pyRemoveSpaces node_id
  match validate_node_id nid with
  | .error e => (.error e, s)
  | .ok _ =>
    match validate_label label with
    | .error e => (.error e, s)
    | .ok _ =>
      let style := NodeStyle.applyOverrides s.themeConfig.node_style kwargs
      let node : Node := { id := nid, label := label, shape := shape, style := style }
      match s.active_cluster with
      | some c =>
        (.ok (), { s with clusters := dict_modify s.clusters c (fun cl => cl.add_node node) })
      | none =>
        (.ok (), { s with nodes := dict_insert s.nodes nid node })

/-- `DotInterpreter._create_edge`. -/
def DotInterpreter.create_edge (s : DotInterpreter) (from_node to_node : String)
    (label : Option String := none) (style : EdgeStyle := .SOLID)
    (kwargs : EdgeStyleOverride := {}) : Except PyErr Unit × DotInterpreter :=
  let f := pyRemoveSpaces from_node
  let t := pyRemoveSpaces to_node
  if ¬ s.node_exists_anywhere f then
    (.error (.nodeNotFoundError ("Source node \x27" ++ f ++ "\x27 not found")), s)
  else if ¬ s.node_exists_anywhere t then
    (.error (.nodeNotFoundError ("Target node \x27" ++ t ++ "\x27 not found")), s)
  else
    match (if pyTruthyOptStr label then validate_label (label.getD "") else .ok ()) with
    | .error e => (.error e, s)
    | .ok _ =>
      let base := { s.themeConfig.edge_style with style := EdgeStyleVal.enum style }
      let edge_style := EdgeStyleConfig.applyOverrides base kwargs
      let edge : Edge := { from_node := f, to_node := t, label := label, style := edge_style }
      match s.active_cluster with
      | some c =>
        (.ok (), { s with clusters := dict_modify s.clusters c (fun cl => cl.add_edge edge) })
      | none =>
        (.ok (), { s with edges := s.edges ++ [edge] })

/-- `DotInterpreter.start`. -/
def DotInterpreter.start (s : DotInterpreter) (node_id : String)
    (label : Option String := none) : Except PyErr Unit × DotInterpreter :=
  s.create_node node_id (pyOrElse label node_id) .ELLIPSE

/-- `DotInterpreter.process`. -/
def DotInterpreter.process (s : DotInterpreter) (node_id : String)
    (label : Option String := none) : Except PyErr Unit × DotInterpreter :=
  s.create_node node_id (pyOrElse label node_id) .RECTANGLE

/-- `DotInterpreter.connect`. -/
def DotInterpreter.connect (s : DotInterpreter) (from_node to_node : String)
    (label : Option String := none) (style : EdgeStyle := .SOLID) :
    Except PyErr Unit × DotInterpreter :=
  s.create_edge from_node to_node label style

/-- The body of `DotInterpreter.cluster` up to the `yield`: save the active
scope, make `name` current, and (re)bind `name` to a fresh cluster built
from the default style block updated with the style keyword arguments. -/
def DotInterpreter.enter_cluster (s : DotInterpreter) (name label : String)
    (style_kwargs : List (String × String) := []) : DotInterpreter :=
  let cluster_style := style_kwargs.foldl (fun d p => dict_insert d p.1 p.2)
    cluster_default_style
  { s with currentCluster := some name
           clusters := dict_insert s.clusters name (Cluster.init name label cluster_style) }

/-- The whole `with flow.cluster(name, label): body` context manager: the
`finally` restores the previous active scope whether the body returned or
raised (the body's outcome is its `Except` result). -/
def DotInterpreter.cluster (s : DotInterpreter) (name label : String)
    (style_kwargs : List (String × String))
    (body : DotInterpreter → Except PyErr Unit × DotInterpreter) :
    Except PyErr Unit × DotInterpreter :=
  let prev := s.currentCluster
  let s1 := s.enter_cluster name label style_kwargs
  let r := body s1
  (r.1, { r.2 with currentCluster := prev })

/-- `DotInterpreter.to_dot`. -/
def DotInterpreter.to_dot (s : DotInterpreter) : Except PyErr String :=
  let header := ["digraph " ++ s.name ++ " \x7b"]
    ++ s.graphAttrs.map (fun p => "  " ++ p.1 ++ "=\"" ++ p.2 ++ "\";")
    ++ ["  node [fontname=\"Arial\", fontsize=12];",
        "  edge [fontname=\"Arial\", fontsize=10];", ""]
    ++ s.nodes.map (fun p => "  " ++ p.2.to_dot)
  match s.edges.mapM Edge.to_dot with
  | .error e => .error e
  | .ok es =>
    match s.clusters.mapM (fun p => p.2.to_dot) with
    | .error e => .error e
    | .ok cls =>
      .ok (py_join "\n" (header ++ es.map (fun l => "  " ++ l)
        ++ (cls.map (fun ls => ls.map (fun l => "  " ++ l))).flatten ++ ["\x7d"]))

/-! ### Natural-language API (`dotflow/api/natural.py`) -/


/-- `NaturalLanguageAPI.__rshift__` with a string operand. -/
def DotInterpreter.rshift (s : DotInterpreter) (other : String) :
    Except PyErr Unit × DotInterpreter :=
  match validate_node_id other with
  | .error e => (.error e, s)
  | .ok _ =>
    if pyTruthyOptStr s.lastNode then
      match s.connect (s.lastNode.getD "") other s.pendingLabel with
      | (.ok _, s1) => (.ok (), { s1 with pendingLabel := none, lastNode := some other })
      | (.error e, s1) => (.error e, s1)
    else
      match s.start other with
      | (.ok _, s1) => (.ok (), { s1 with lastNode := some other })
      | (.error e, s1) => (.error e, s1)

/-- `NaturalLanguageAPI.__or__` with a string operand. -/
def DotInterpreter.or_label (s : DotInterpreter) (other : String) : DotInterpreter :=
  { s with pendingLabel := some other }

/-- `NaturalLanguageAPI.__floordiv__` with a string operand. -/
def DotInterpreter.floordiv (s : DotInterpreter) (other : String) :
    Except PyErr Unit × DotInterpreter :=
  if pyTruthyOptStr s.lastNode then
    match s.connect (s.lastNode.getD "") other none .DASHED with
    | (.ok _, s1) => (.ok (), { s1 with lastNode := some other })
    | (.error e, s1) => (.error e, s1)
  else (.ok (), s)

/-! ### Textual DSL (`dotflow/api/dsl.py`)

The three statement regexes are hand-translated to recognizers over the
character list, following Python `re.match` (prefix match, greedy with
backtracking). They are applied to lines produced by splitting on a newline
and stripping, so the inputs contain no newline; `.` is treated as "any
character" accordingly. -/


/-- `re.match(r"(\w+)\s*(?:\{([^}]+)\})?\s*->\s*(\w+)\s*(?::\s*(.+))?", line)`,
returning `(from, modifiers, to, label)` on success. -/
def matchConnection (line : String) : Option (String × Option String × String × Option String) :=
  let cs := line.toList
  let w1 := cs.takeWhile pyIsWordChar
  if w1.isEmpty then none else
  let r1 := (cs.drop w1.length).dropWhile pyIsSpaceChar
  -- optional {modifiers}: if a brace opens here it must close after 1+ chars,
  -- otherwise no alternative of the pattern can match at this position
  let afterMods : Option (Option (List Char) × List Char) :=
    match r1 with
    | c :: tl =>
      if c = Char.ofNat 123 then
        let content := tl.takeWhile (fun c2 => ¬ c2 = Char.ofNat 125)
        if content.isEmpty then none
        else match tl.drop content.length with
          | c2 :: tl2 => if c2 = Char.ofNat 125 then some (some content, tl2) else none
          | [] => none
      else some (none, r1)
    | [] => some (none, r1)
  match afterMods with
  | none => none
  | some (mods, r2) =>
    match r2.dropWhile pyIsSpaceChar with
    | '-' :: '>' :: r3 =>
      let r3 := r3.dropWhile pyIsSpaceChar
      let w2 := r3.takeWhile pyIsWordChar
      if w2.isEmpty then none else
      let r4 := (r3.drop w2.length).dropWhile pyIsSpaceChar
      -- optional ": LABEL"; the group needs at least one character, and when
      -- everything after the colon is whitespace, `\s*` backtracks so `(.+)`
      -- takes the last character; a failing group just ends the prefix match
      let label : Option String :=
        match r4 with
        | ':' :: r5 =>
          let r6 := r5.dropWhile pyIsSpaceChar
          if r6.isEmpty then
            match r5.reverse with
            | [] => none
            | c :: _ => some (String.mk [c])
          else some (String.mk r6)
        | _ => none
      some (String.mk w1, mods.map String.mk, String.mk w2, label)
    | _ => none

/-- `re.match(r"(\w+)\s*\[(.+)\]", line)`: greedy `(.+)` makes the attribute
text run to the last closing bracket of the line. -/
def matchNodeDef (line : String) : Option (String × String) :=
  let cs := line.toList
  let w1 := cs.takeWhile pyIsWordChar
  if w1.isEmpty then none else
  match (cs.drop w1.length).dropWhile pyIsSpaceChar with
  | '[' :: tl =>
    match (tl.reverse).dropWhile (fun c => ¬ c = ']') with
    | ']' :: restRev =>
      let content := restRev.reverse
      if content.isEmpty then none
      else some (String.mk w1, String.mk content)
    | _ => none
  | _ => none

/-- `re.match(r"^\w+$", line)`. -/
def matchBareWord (line : String) : Bool :=
  match line.toList with
  | [] => false
  | c :: rest => pyIsWordChar c && pyIdTail rest

/-- One iteration attempt of `re.finditer(r"(\w+)\s*=\s*([^,]+)", s)` at the
head of the list: on success returns key, value and the rest of the input
after the match. -/
def try_attr_match (cs : List Char) : Option (String × String × List Char) :=
  let k := cs.takeWhile pyIsWordChar
  if k.isEmpty then none else
  match (cs.drop k.length).dropWhile pyIsSpaceChar with
  | '=' :: r2 =>
    let t := r2.takeWhile (fun c => ¬ c = ',')
    if t.isEmpty then none
    else
      let v := t.dropWhile pyIsSpaceChar
      -- when everything before the comma is whitespace, `\s*` backtracks one
      -- character so `([^,]+)` matches the final one
      let value :=
        if v.isEmpty then
          match t.reverse with
          | [] => []
          | c :: _ => [c]
        else v
      some (String.mk k, String.mk value, r2.drop t.length)
  | _ => none

/-- `re.finditer` scan: try a match at every position, resume after each
match. The fuel argument is the input length; every step consumes at least
one character, so the fuel never runs out on the initial call. -/
def find_attr_matches : Nat → List Char → List (String × String)
  | 0, _ => []
  | _, [] => []
  | fuel + 1, cs =>
    match try_attr_match cs with
    | some (k, v, rest) => (k, v) :: find_attr_matches fuel rest
    | none =>
      match cs with
      | [] => []
      | _ :: tl => find_attr_matches fuel tl

/-- `TextualDSL._parse_node_definition`. -/
def DotInterpreter.parse_node_definition (s : DotInterpreter)
    (node_id attrs_str : String) : Except PyErr Unit × DotInterpreter :=
  let pairs := find_attr_matches attrs_str.toList.length attrs_str.toList
  let attrs := pairs.foldl
    (fun d kv => dict_insert d (py_strip kv.1) (py_strip_quotes (py_strip kv.2))) []
  let shape :=
    match dict_get attrs "shape" with
    | some v => (nodeShapeByName (pyToUpper v)).getD .RECTANGLE
    | none => .RECTANGLE
  let label := (dict_get attrs "label").getD node_id
  s.create_node node_id label shape

/-- `TextualDSL._parse_connection`. -/
def DotInterpreter.parse_connection (s : DotInterpreter) (from_node to_node : String)
    (label : Option String) (modifiers : Option String) :
    Except PyErr Unit × DotInterpreter :=
  let style : EdgeStyle :=
    if pyTruthyOptStr modifiers then
      let m := modifiers.getD ""
      if str_contains m "dashed" then .DASHED
      else if str_contains m "dotted" then .DOTTED
      else if str_contains m "bold" then .BOLD
      else .SOLID
    else .SOLID
  s.connect from_node to_node label style

/-- `TextualDSL._parse_line` (the line is already stripped by the caller). -/
def DotInterpreter.parse_line (s : DotInterpreter) (line : String)
    (line_number : Nat) : Except PyErr Unit × DotInterpreter :=
  match matchConnection line with
  | some (f, mods, t, lab) => s.parse_connection f t lab mods
  | none =>
    match matchNodeDef line with
    | some (nid, attrs) => s.parse_node_definition nid attrs
    | none =>
      if matchBareWord line then s.process line
      else (.error (.dslParseError
        ("Unrecognized DSL syntax at line " ++ toString line_number)), s)

/-- The loop body of `TextualDSL.parse_dsl`, with the incrementing line
counter: blank and comment lines are skipped, any exception from a line is
rewrapped as `Error parsing line {n}: {line}` and aborts the parse. -/
def DotInterpreter.parse_dsl_lines (s : DotInterpreter) :
    List String → Nat → Except PyErr Unit × DotInterpreter
  | [], _ => (.ok (), s)
  | l :: ls, n =>
    let line := py_strip l
    if line = "" || py_starts_hash line then s.parse_dsl_lines ls (n + 1)
    else
      match s.parse_line line n with
      | (.ok _, s1) => s1.parse_dsl_lines ls (n + 1)
      | (.error _, s1) =>
        (.error (.dslParseError
          ("Error parsing line " ++ toString n ++ ": " ++ line)), s1)

/-- `TextualDSL.parse_dsl`. -/
def DotInterpreter.parse_dsl (s : DotInterpreter) (dsl_text : String) :
    Except PyErr Unit × DotInterpreter :=
  s.parse_dsl_lines (py_split_nl (py_strip dsl_text)) 1

/-- The Boolean acceptance predicate realized by `validate_node_id`:
the part of the id before the first `[` must be a nonempty
`[a-zA-Z_]\w*` match (with Python's trailing-newline allowance on `$`). -/
def py_node_id_ok (v : String) : Bool :=
  id_before_bracket v ≠ "" && pyMatchIdFull (id_before_bracket v)

/-! ### Characterizations of `_create_node` -/


/-- The node value `_create_node` builds: space-stripped id, the given label
and shape, and the theme's node style updated with the overrides. -/
def resolved_node (s : DotInterpreter) (id lbl : String) (sh : NodeShape)
    (o : NodeStyleOverride) : Node :=
  { id := pyRemoveSpaces id, label := lbl, shape := sh,
    style := NodeStyle.applyOverrides s.themeConfig.node_style o }

/-! ### Characterization of `_create_edge` -/


/-- The edge value `_create_edge` builds: space-stripped endpoints, the given
label, and the theme's edge style with the `style` parameter and then the
overrides applied. -/
def resolved_edge (s : DotInterpreter) (a b : String) (lab : Option String)
    (st : EdgeStyle) (o : EdgeStyleOverride) : Edge :=
  { from_node := pyRemoveSpaces a, to_node := pyRemoveSpaces b, label := lab,
    style := EdgeStyleConfig.applyOverrides
      { s.themeConfig.edge_style with style := .enum st } o }

/-! ### Common concrete inputs -/


/-- A fresh interpreter: `create_flow()` with all defaults. -/
def flow0 : DotInterpreter := create_flow

/-- Spec-side identifier predicate, taken from the claim's words ("matches
`[A-Za-z_][A-Za-z0-9_]*` after internal whitespace stripping"), to compare
against what the code's validator accepts. -/
def claim_id_matches (s : String) : Bool :=
  match s.toList.filter (fun c => ¬ pyIsSpaceChar c) with
  | [] => false
  | c :: rest => (c.isAlpha || c = '_') && rest.all (fun c2 => c2.isAlphanum || c2 = '_')

def c4_state : DotInterpreter := (flow0.start "A").2

def c10_state : DotInterpreter :=
  ((flow0.enter_cluster "c" "First" []).create_node "X" "X" .RECTANGLE).2

def c3_run : Except PyErr Unit × DotInterpreter :=
  flow0.cluster "c" "Box" [] (fun t =>
    (t.create_node "A" "one" .RECTANGLE).2.create_node "A" "two" .RECTANGLE)

/-- Modelled from the spec words for style resolution ("overrides win, unset
fields fall back to the theme's defaults"): the field-wise merge the claim
describes, to compare with what `_create_node` actually stores. -/
def spec_style_record (t : NodeStyle) (o : NodeStyleOverride) : NodeStyle :=
  { color := o.color.getD t.color
    fillcolor := o.fillcolor.getD t.fillcolor
    fontcolor := o.fontcolor.getD t.fontcolor
    fontsize := o.fontsize.getD t.fontsize
    fontname := o.fontname.getD t.fontname
    style := o.style.getD t.style
    width := o.width.getD t.width
    height := o.height.getD t.height }

/-- Modelled from the spec words for style resolution, applied to the edge
path of `_create_edge`: the `style` parameter fills the line-pattern field,
then explicit overrides win field-wise and every unset field falls back to
the theme's default. -/
def spec_edge_style_record (t : EdgeStyleConfig) (st : EdgeStyle)
    (o : EdgeStyleOverride) : EdgeStyleConfig :=
  { color := o.color.getD t.color
    fontcolor := o.fontcolor.getD t.fontcolor
    fontsize := o.fontsize.getD t.fontsize
    arrowhead := o.arrowhead.getD t.arrowhead
    arrowtail := o.arrowtail.getD t.arrowtail
    style := o.style.getD (.enum st) }

/-- A state with one node `A`, for exercising edge style resolution. -/
def c9_state : DotInterpreter := (flow0.start "A").2

def c5_outer : DotInterpreter := flow0.enter_cluster "out" "Outer" []

def c5_after : Except PyErr Unit × DotInterpreter :=
  c5_outer.cluster "inn" "Inner" []
    (fun t => t.create_node "bad id!" "x" .RECTANGLE)

def c6_state : DotInterpreter := (((flow0.rshift "A").2.process "B").2).or_label "L"

def c1_dsl : Except PyErr Unit × DotInterpreter :=
  flow0.parse_dsl "A -> B : Yes\nB -> C\n"

def c1_direct : Except PyErr Unit × DotInterpreter :=
  let s1 := (flow0.create_node "A" "A" .RECTANGLE).2
  let s2 := (s1.create_node "B" "B" .RECTANGLE).2
  let s3 := (s2.create_node "C" "C" .RECTANGLE).2
  let s4 := (s3.create_edge "A" "B" (some "Yes")).2
  s4.create_edge "B" "C"

def c7_state : DotInterpreter :=
  (((flow0.start "A").2.process "B").2.connect "A" "B" (some "go")).2

/-! ### Theorems -/

/-! ### Dictionary and validator lemmas -/


theorem dict_get_insert {α : Type} (d : List (String × α)) (k : String) (v : α) :
    dict_get (dict_insert d k v) k = some v := by
  induction d with
  | nil => simp [dict_insert, dict_get]
  | cons p tl ih =>
    by_cases h : p.1 = k
    · simp [dict_insert, dict_get, h]
    · simpa [dict_insert, dict_get, h] using ih

theorem dict_insert_insert {α : Type} (d : List (String × α)) (k : String) (v1 v2 : α) :
    dict_insert (dict_insert d k v1) k v2 = dict_insert d k v2 := by
  induction d with
  | nil => simp [dict_insert]
  | cons p tl ih =>
    by_cases h : p.1 = k
    · simp [dict_insert, h]
    · simp [dict_insert, h, ih]

theorem dict_get_modify {α : Type} (d : List (String × α)) (k : String) (f : α → α) :
    dict_get (dict_modify d k f) k = (dict_get d k).map f := by
  induction d with
  | nil => simp [dict_modify, dict_get]
  | cons p tl ih =>
    by_cases h : p.1 = k
    · simp [dict_modify, dict_get, h]
    · simpa [dict_modify, dict_get, h] using ih

theorem validate_node_id_ok_iff (v : String) :
    validate_node_id v = .ok () ↔ py_node_id_ok v = true := by
  unfold validate_node_id py_node_id_ok
  by_cases h1 : id_before_bracket v = ""
  · simp [h1]
  · by_cases h2 : pyMatchIdFull (id_before_bracket v) <;> simp [h1, h2]

theorem validate_node_id_not_ok (v : String) (h : py_node_id_ok v = false) :
    ∃ msg, validate_node_id v = .error (.validationError msg) := by
  unfold py_node_id_ok at h
  unfold validate_node_id
  by_cases h1 : id_before_bracket v = ""
  · exact ⟨"Node ID cannot be empty", by simp [h1]⟩
  · simp [h1] at h
    exact ⟨"Invalid node ID: \x27" ++ id_before_bracket v ++ "\x27. " ++
      "Must start with a letter or underscore and contain only " ++
      "alphanumeric characters and underscores.", by simp [h1, h]⟩

/-- Successful node creation at top level (no active cluster). -/
theorem create_node_top (s : DotInterpreter) (id lbl : String) (sh : NodeShape)
    (o : NodeStyleOverride)
    (hid : py_node_id_ok (pyRemoveSpaces id) = true)
    (hlbl : validate_label lbl = .ok ())
    (hscope : s.currentCluster = none) :
    s.create_node id lbl sh o =
      (.ok (), { s with
        nodes := dict_insert s.nodes (pyRemoveSpaces id) (resolved_node s id lbl sh o) }) := by
  have hv : validate_node_id (pyRemoveSpaces id) = .ok () :=
    (validate_node_id_ok_iff _).mpr hid
  have hac : s.active_cluster = none := by
    unfold DotInterpreter.active_cluster
    rw [hscope]
  unfold DotInterpreter.create_node
  simp only [hv, hlbl, hac, resolved_node]

/-- Successful node creation inside an active cluster: the node is appended
to the cluster's node list. -/
theorem create_node_in_cluster (s : DotInterpreter) (id lbl : String) (sh : NodeShape)
    (o : NodeStyleOverride) (c : String) (cl : Cluster)
    (hid : py_node_id_ok (pyRemoveSpaces id) = true)
    (hlbl : validate_label lbl = .ok ())
    (hscope : s.currentCluster = some c) (hc : c ≠ "")
    (hcl : dict_get s.clusters c = some cl) :
    s.create_node id lbl sh o =
      (.ok (), { s with
        clusters := dict_modify s.clusters c
          (fun x => x.add_node (resolved_node s id lbl sh o)) }) := by
  have hv : validate_node_id (pyRemoveSpaces id) = .ok () :=
    (validate_node_id_ok_iff _).mpr hid
  have hac : s.active_cluster = some c := by
    unfold DotInterpreter.active_cluster
    rw [hscope]
    simp [hc, hcl]
  unfold DotInterpreter.create_node
  simp only [hv, hlbl, hac, resolved_node]

/-- Failed node creation: an invalid identifier raises `ValidationError`
before any mutation. -/
theorem create_node_invalid (s : DotInterpreter) (id lbl : String) (sh : NodeShape)
    (o : NodeStyleOverride)
    (hid : py_node_id_ok (pyRemoveSpaces id) = false) :
    (∃ msg, (s.create_node id lbl sh o).1 = .error (.validationError msg)) ∧
      (s.create_node id lbl sh o).2 = s := by
  obtain ⟨msg, herr⟩ := validate_node_id_not_ok _ hid
  unfold DotInterpreter.create_node
  refine ⟨⟨msg, ?_⟩, ?_⟩ <;> simp [herr]

/-- Successful unlabeled edge creation at top level. -/
theorem create_edge_top_nolabel (s : DotInterpreter) (a b : String)
    (st : EdgeStyle) (o : EdgeStyleOverride)
    (ha : s.node_exists_anywhere (pyRemoveSpaces a) = true)
    (hb : s.node_exists_anywhere (pyRemoveSpaces b) = true)
    (hscope : s.currentCluster = none) :
    s.create_edge a b none st o =
      (.ok (), { s with edges := s.edges ++ [resolved_edge s a b none st o] }) := by
  have hac : s.active_cluster = none := by
    unfold DotInterpreter.active_cluster
    rw [hscope]
  unfold DotInterpreter.create_edge
  simp [ha, hb, hac, resolved_edge, pyTruthyOptStr]

/-- Claim C2, counterexample: `"A[b]"` does not match the claimed identifier
pattern, yet `create_node` accepts it (the validator only checks the part
before the first `[`) and stores the node under the key `"A[b]"`, instead
of failing with `ValidationError`. -/
theorem C2_counterexample :
    claim_id_matches "A[b]" = false ∧
    (flow0.create_node "A[b]" "x" .RECTANGLE).1 = .ok () ∧
    (dict_get (flow0.create_node "A[b]" "x" .RECTANGLE).2.nodes "A[b]").isSome = true := by
  decide

/-- Claim C2 (amended): after removing spaces (only U+0020, not all
whitespace) and ignoring everything from the first `[` on, an id whose
validated part is nonempty and matches `^[a-zA-Z_]\w*$` (Python semantics,
one trailing newline allowed) makes `create_node` succeed with the node
retrievable in the top-level scope under the space-stripped id; any other
string makes it fail with `ValidationError` and leaves the model unchanged. -/
theorem C2_create_node_validation (s : DotInterpreter) (id lbl : String)
    (sh : NodeShape)
    (hlbl : validate_label lbl = .ok ()) (hscope : s.currentCluster = none) :
    (py_node_id_ok (pyRemoveSpaces id) = true →
      (s.create_node id lbl sh).1 = .ok () ∧
      dict_get (s.create_node id lbl sh).2.nodes (pyRemoveSpaces id) =
        some (resolved_node s id lbl sh {})) ∧
    (py_node_id_ok (pyRemoveSpaces id) = false →
      (∃ msg, (s.create_node id lbl sh).1 = .error (.validationError msg)) ∧
      (s.create_node id lbl sh).2 = s) := by
  constructor
  · intro hid
    rw [create_node_top s id lbl sh {} hid hlbl hscope]
    exact ⟨rfl, dict_get_insert _ _ _⟩
  · intro hid
    exact create_node_invalid s id lbl sh {} hid

theorem C2_witness :
    py_node_id_ok (pyRemoveSpaces "my node") = true ∧
    (flow0.create_node "my node" "L" .RECTANGLE).1 = .ok () ∧
    dict_get (flow0.create_node "my node" "L" .RECTANGLE).2.nodes "mynode" =
      some (resolved_node flow0 "my node" "L" .RECTANGLE {}) := by
  have h := (C2_create_node_validation flow0 "my node" "L" .RECTANGLE
    (by decide) rfl).1 (by decide)
  exact ⟨by decide, h.1, h.2⟩

/-- Claim C4 (confirmed): `create_edge` raises `NodeNotFoundError` naming
the missing side when either space-stripped endpoint resolves nowhere in
the model (neither top level nor any cluster), and the state is returned
unchanged. -/
theorem C4_create_edge_missing_endpoint (s : DotInterpreter) (a b : String)
    (lab : Option String) (st : EdgeStyle) (o : EdgeStyleOverride)
    (h : s.node_exists_anywhere (pyRemoveSpaces a) = false ∨
         s.node_exists_anywhere (pyRemoveSpaces b) = false) :
    (s.create_edge a b lab st o).2 = s ∧
    (s.create_edge a b lab st o).1 = Except.error (.nodeNotFoundError
      (if s.node_exists_anywhere (pyRemoveSpaces a) = true then
        "Target node \x27" ++ pyRemoveSpaces b ++ "\x27 not found"
      else "Source node \x27" ++ pyRemoveSpaces a ++ "\x27 not found")) := by
  unfold DotInterpreter.create_edge
  rcases h with h | h
  · constructor <;> simp [h]
  · by_cases ha : s.node_exists_anywhere (pyRemoveSpaces a) = true
    · constructor <;> simp [ha, h]
    · constructor <;> simp [ha]

theorem C4_witness :
    (c4_state.create_edge "A" "Zed" none .SOLID {}).2 = c4_state ∧
    (c4_state.create_edge "A" "Zed" none .SOLID {}).1 =
      Except.error (.nodeNotFoundError "Target node \x27Zed\x27 not found") := by
  have h := C4_create_edge_missing_endpoint c4_state "A" "Zed" none .SOLID {}
    (Or.inr (by decide))
  refine ⟨h.1, ?_⟩
  rw [h.2]
  decide

/-- Claim C10 (confirmed): entering a cluster whose name is already mapped
unconditionally rebinds the name to a fresh cluster with empty node and
edge lists, so everything previously stored under that name is dropped
from the model (and from serialization, which reads only this mapping). -/
theorem C10_cluster_reentry_resets (s : DotInterpreter) (name lbl : String)
    (kw : List (String × String))
    (_h : (dict_get s.clusters name).isSome = true) :
    dict_get (s.enter_cluster name lbl kw).clusters name =
      some (Cluster.init name lbl
        (kw.foldl (fun d p => dict_insert d p.1 p.2) cluster_default_style)) ∧
    (Cluster.init name lbl
      (kw.foldl (fun d p => dict_insert d p.1 p.2) cluster_default_style)).nodes = [] ∧
    (Cluster.init name lbl
      (kw.foldl (fun d p => dict_insert d p.1 p.2) cluster_default_style)).edges = [] := by
  refine ⟨?_, rfl, rfl⟩
  unfold DotInterpreter.enter_cluster
  exact dict_get_insert _ _ _

theorem C10_witness :
    (dict_get c10_state.clusters "c").map (fun cl => cl.nodes.length) = some 1 ∧
    dict_get (c10_state.enter_cluster "c" "Second" []).clusters "c" =
      some (Cluster.init "c" "Second" cluster_default_style) := by
  have h := C10_cluster_reentry_resets c10_state "c" "Second" [] (by decide)
  exact ⟨by decide, h.1⟩

/-- Claim C3, counterexample: re-creating node `"A"` inside cluster `"c"`
does not overwrite in place — the cluster ends up holding both entries,
the stale `("A", "one")` included. -/
theorem C3_counterexample :
    (dict_get c3_run.2.clusters "c").map (fun cl => cl.nodes.map (fun n => (n.id, n.label))) =
      some [("A", "one"), ("A", "two")] := by
  decide

/-- Claim C3 (amended): re-creating an id in the top-level scope overwrites
in place (last write wins, the dict keeps one entry with the new label);
in a cluster scope the node is instead appended, so the cluster retains
both the old and the new entry in order. -/
theorem C3_recreate_node (s : DotInterpreter) (id l1 l2 : String)
    (sh1 sh2 : NodeShape)
    (hid : py_node_id_ok (pyRemoveSpaces id) = true)
    (h1 : validate_label l1 = .ok ()) (h2 : validate_label l2 = .ok ()) :
    (s.currentCluster = none →
      ((s.create_node id l1 sh1).2.create_node id l2 sh2).2 =
        { s with nodes :=
            dict_insert s.nodes (pyRemoveSpaces id) (resolved_node s id l2 sh2 {}) }) ∧
    (∀ c cl, s.currentCluster = some c → c ≠ "" → dict_get s.clusters c = some cl →
      dict_get ((s.create_node id l1 sh1).2.create_node id l2 sh2).2.clusters c =
        some { cl with nodes :=
          cl.nodes ++ [resolved_node s id l1 sh1 {}, resolved_node s id l2 sh2 {}] }) := by
  constructor
  · intro hscope
    rw [create_node_top s id l1 sh1 {} hid h1 hscope]
    set S : DotInterpreter := { s with nodes := dict_insert s.nodes (pyRemoveSpaces id) (resolved_node s id l1 sh1 {}) } with hS
    simp only [Prod.snd]
    have hscopeS : S.currentCluster = none := by rw [hS]; exact hscope
    rw [create_node_top S id l2 sh2 {} hid h2 hscopeS]
    simp only [Prod.snd]
    rw [hS]
    simp [resolved_node, dict_insert_insert]
  · intro c cl hscope hc hcl
    rw [create_node_in_cluster s id l1 sh1 {} c cl hid h1 hscope hc hcl]
    set S : DotInterpreter := { s with clusters := dict_modify s.clusters c (fun x => x.add_node (resolved_node s id l1 sh1 {})) } with hS
    simp only [Prod.snd]
    have hscopeS : S.currentCluster = some c := by rw [hS]; exact hscope
    have hclS : dict_get S.clusters c = some (cl.add_node (resolved_node s id l1 sh1 {})) := by
      rw [hS]
      show dict_get (dict_modify s.clusters c (fun x => x.add_node (resolved_node s id l1 sh1 {}))) c = _
      rw [dict_get_modify, hcl]
      rfl
    rw [create_node_in_cluster S id l2 sh2 {} c
      (cl.add_node (resolved_node s id l1 sh1 {})) hid h2 hscopeS hc hclS]
    simp only [Prod.snd]
    rw [hS]
    show dict_get (dict_modify (dict_modify s.clusters c (fun x => x.add_node (resolved_node s id l1 sh1 {}))) c (fun x => x.add_node (resolved_node ({ s with clusters := dict_modify s.clusters c (fun x => x.add_node (resolved_node s id l1 sh1 {})) }) id l2 sh2 {}))) c = _
    rw [dict_get_modify, dict_get_modify, hcl]
    simp [Cluster.add_node, resolved_node]

theorem C3_witness :
    ((flow0.create_node "A" "one" .RECTANGLE).2.create_node "A" "two" .DIAMOND).2 =
      { flow0 with nodes :=
          dict_insert flow0.nodes "A" (resolved_node flow0 "A" "two" .DIAMOND {}) } := by
  exact (C3_recreate_node flow0 "A" "one" "two" .RECTANGLE .DIAMOND
    (by decide) (by decide) (by decide)).1 rfl

/-- Claim C9 (confirmed): style resolution is pure and deterministic on
both the node and the edge path — the stored node or edge style record has
the override value on every overridden field and the theme default on every
other field (for edges, the `style` parameter fills the line-pattern field
unless overridden), the shared theme configuration is never mutated, and a
later call with no overrides still resolves to the original theme
defaults. -/
theorem C9_style_resolution (s : DotInterpreter) (id lbl : String)
    (sh : NodeShape) (o : NodeStyleOverride) (a b : String) (st : EdgeStyle)
    (oe : EdgeStyleOverride)
    (hid : py_node_id_ok (pyRemoveSpaces id) = true)
    (hlbl : validate_label lbl = .ok ()) (hscope : s.currentCluster = none)
    (ha : s.node_exists_anywhere (pyRemoveSpaces a) = true)
    (hb : s.node_exists_anywhere (pyRemoveSpaces b) = true) :
    ((s.create_node id lbl sh o).1 = .ok () ∧
     (s.create_node id lbl sh o).2.themeConfig = s.themeConfig ∧
     dict_get (s.create_node id lbl sh o).2.nodes (pyRemoveSpaces id) =
       some { id := pyRemoveSpaces id, label := lbl, shape := sh,
              style := spec_style_record s.themeConfig.node_style o } ∧
     (∀ id2 lbl2 sh2, py_node_id_ok (pyRemoveSpaces id2) = true →
       validate_label lbl2 = .ok () →
       dict_get ((s.create_node id lbl sh o).2.create_node id2 lbl2 sh2).2.nodes
           (pyRemoveSpaces id2) =
         some { id := pyRemoveSpaces id2, label := lbl2, shape := sh2,
                style := s.themeConfig.node_style })) ∧
    ((s.create_edge a b none st oe).1 = .ok () ∧
     (s.create_edge a b none st oe).2.themeConfig = s.themeConfig ∧
     (s.create_edge a b none st oe).2.edges =
       s.edges ++ [{ from_node := pyRemoveSpaces a, to_node := pyRemoveSpaces b, label := none, style := spec_edge_style_record s.themeConfig.edge_style st oe }] ∧
     (∀ st2, ((s.create_edge a b none st oe).2.create_edge a b none st2).2.edges =
       s.edges ++ [resolved_edge s a b none st oe, { from_node := pyRemoveSpaces a, to_node := pyRemoveSpaces b, label := none, style := { s.themeConfig.edge_style with style := EdgeStyleVal.enum st2 } }])) := by
  constructor
  · have e1 := create_node_top s id lbl sh o hid hlbl hscope
    refine ⟨by rw [e1], by rw [e1], ?_, ?_⟩
    · rw [e1]
      show dict_get (dict_insert s.nodes (pyRemoveSpaces id) (resolved_node s id lbl sh o)) (pyRemoveSpaces id) = _
      rw [dict_get_insert]
      rfl
    · intro id2 lbl2 sh2 hid2 hlbl2
      rw [e1]
      set S : DotInterpreter := { s with nodes := dict_insert s.nodes (pyRemoveSpaces id) (resolved_node s id lbl sh o) } with hS
      simp only [Prod.snd]
      have hscopeS : S.currentCluster = none := by rw [hS]; exact hscope
      rw [create_node_top S id2 lbl2 sh2 {} hid2 hlbl2 hscopeS]
      simp only [Prod.snd]
      show dict_get (dict_insert S.nodes (pyRemoveSpaces id2) (resolved_node S id2 lbl2 sh2 {})) (pyRemoveSpaces id2) = _
      rw [dict_get_insert]
      rw [hS]
      rfl
  · have e2 := create_edge_top_nolabel s a b st oe ha hb hscope
    refine ⟨by rw [e2], by rw [e2], by rw [e2]; rfl, ?_⟩
    intro st2
    rw [e2]
    set S : DotInterpreter := { s with edges := s.edges ++ [resolved_edge s a b none st oe] } with hS
    simp only [Prod.snd]
    have haS : S.node_exists_anywhere (pyRemoveSpaces a) = true := by rw [hS]; exact ha
    have hbS : S.node_exists_anywhere (pyRemoveSpaces b) = true := by rw [hS]; exact hb
    have hscopeS : S.currentCluster = none := by rw [hS]; exact hscope
    rw [create_edge_top_nolabel S a b st2 {} haS hbS hscopeS]
    simp only [Prod.snd]
    rw [hS]
    simp [resolved_edge, EdgeStyleConfig.applyOverrides, List.append_assoc]

theorem C9_witness :
    (c9_state.create_node "B" "L" .RECTANGLE { fillcolor := some "red" }).1 = .ok () ∧
    dict_get (c9_state.create_node "B" "L" .RECTANGLE { fillcolor := some "red" }).2.nodes "B" =
      some { id := "B", label := "L", shape := .RECTANGLE,
             style := { fillcolor := "red" } } ∧
    (c9_state.create_edge "A" "A" none .DOTTED { color := some "blue" }).1 = .ok () ∧
    (c9_state.create_edge "A" "A" none .DOTTED { color := some "blue" }).2.edges =
      [resolved_edge c9_state "A" "A" none .DOTTED { color := some "blue" }] ∧
    ((c9_state.create_edge "A" "A" none .DOTTED { color := some "blue" }).2.create_edge "A" "A" none .BOLD).2.edges =
      [resolved_edge c9_state "A" "A" none .DOTTED { color := some "blue" },
       { from_node := "A", to_node := "A", label := none, style := { c9_state.themeConfig.edge_style with style := EdgeStyleVal.enum .BOLD } }] := by
  have h := C9_style_resolution c9_state "B" "L" .RECTANGLE { fillcolor := some "red" }
    "A" "A" .DOTTED { color := some "blue" }
    (by decide) (by decide) rfl (by decide) (by decide)
  exact ⟨h.1.1, h.1.2.2.1, h.2.1, h.2.2.2.1, h.2.2.2.2 .BOLD⟩

/-- Claim C5 (confirmed): the cluster context manager restores the previous
active scope on exit for every body, including bodies that raise (the body
outcome is arbitrary), and a node created after exiting an inner cluster is
appended to the still-active outer cluster, not the inner one. -/
theorem C5_cluster_scope_stack (s : DotInterpreter) (inner ilbl : String)
    (kw : List (String × String))
    (body : DotInterpreter → Except PyErr Unit × DotInterpreter)
    (outer : String) (oc : Cluster) (id lbl : String) (sh : NodeShape)
    (hcur : s.currentCluster = some outer) (houter : outer ≠ "")
    (hid : py_node_id_ok (pyRemoveSpaces id) = true)
    (hlbl : validate_label lbl = .ok ())
    (hoc : dict_get (s.cluster inner ilbl kw body).2.clusters outer = some oc) :
    (s.cluster inner ilbl kw body).2.currentCluster = some outer ∧
    dict_get ((s.cluster inner ilbl kw body).2.create_node id lbl sh).2.clusters outer =
      some (oc.add_node (resolved_node (s.cluster inner ilbl kw body).2 id lbl sh {})) := by
  have hrest : (s.cluster inner ilbl kw body).2.currentCluster = s.currentCluster := rfl
  refine ⟨hrest.trans hcur, ?_⟩
  rw [create_node_in_cluster ((s.cluster inner ilbl kw body).2) id lbl sh {} outer oc hid hlbl (hrest.trans hcur) houter hoc]
  simp only [Prod.snd]
  show dict_get (dict_modify (s.cluster inner ilbl kw body).2.clusters outer (fun x => x.add_node (resolved_node (s.cluster inner ilbl kw body).2 id lbl sh {}))) outer = _
  rw [dict_get_modify, hoc]
  rfl

theorem C5_witness :
    c5_after.2.currentCluster = some "out" ∧
    dict_get (c5_after.2.create_node "Y" "Y" .RECTANGLE).2.clusters "out" =
      some ((Cluster.init "out" "Outer" cluster_default_style).add_node
        (resolved_node c5_after.2 "Y" "Y" .RECTANGLE {})) := by
  exact C5_cluster_scope_stack c5_outer "inn" "Inner" []
    (fun t => t.create_node "bad id!" "x" .RECTANGLE)
    "out" (Cluster.init "out" "Outer" cluster_default_style) "Y" "Y" .RECTANGLE
    rfl (by decide) (by decide) (by decide) (by decide)

/-- Claim C6, counterexample: with no last node, the dashed-chain operator
does nothing at all — it starts no chain and leaves the state untouched —
whereas the chain-advance operator starts a chain (creates the node and
records it as last). -/
theorem C6_counterexample :
    flow0.floordiv "A" = (.ok (), flow0) ∧
    (flow0.floordiv "A").2.lastNode = none ∧
    (flow0.rshift "A").2.lastNode = some "A" ∧
    (dict_get (flow0.rshift "A").2.nodes "A").isSome = true := by
  decide

/-- Claim C6 (amended): the dashed-chain operator only acts when a last node
exists, connecting it to the new node with a dashed unlabeled edge and
updating the last node; the pending label is neither consumed nor cleared
(visible in the state update, which leaves `pendingLabel` alone); with no
last node it is a no-op (no chain is started). -/
theorem C6_floordiv_behavior (s : DotInterpreter) (other : String) :
    (pyTruthyOptStr s.lastNode = false → s.floordiv other = (.ok (), s)) ∧
    (∀ last, s.lastNode = some last → last ≠ "" →
      s.node_exists_anywhere (pyRemoveSpaces last) = true →
      s.node_exists_anywhere (pyRemoveSpaces other) = true →
      s.currentCluster = none →
      s.floordiv other = (.ok (), { s with edges := s.edges ++ [resolved_edge s last other none .DASHED {}], lastNode := some other })) := by
  constructor
  · intro h
    unfold DotInterpreter.floordiv
    rw [h]
    simp
  · intro last hlast hne ha hb hscope
    unfold DotInterpreter.floordiv
    have ht : pyTruthyOptStr s.lastNode = true := by
      rw [hlast]
      unfold pyTruthyOptStr
      simpa using hne
    have hgetd : s.lastNode.getD "" = last := by rw [hlast]; rfl
    have hconn : s.connect (s.lastNode.getD "") other none .DASHED =
        (.ok (), { s with edges := s.edges ++ [resolved_edge s last other none .DASHED {}] }) := by
      rw [hgetd]
      unfold DotInterpreter.connect
      exact create_edge_top_nolabel s last other .DASHED {} ha hb hscope
    rw [ht, hconn]
    rfl

theorem C6_witness :
    c6_state.lastNode = some "A" ∧ c6_state.pendingLabel = some "L" ∧
    c6_state.floordiv "B" = (.ok (), { c6_state with edges := c6_state.edges ++ [resolved_edge c6_state "A" "B" none .DASHED {}], lastNode := some "B" }) ∧
    (c6_state.floordiv "B").2.pendingLabel = some "L" := by
  have h := (C6_floordiv_behavior c6_state "B").2 "A" rfl (by decide) (by decide)
    (by decide) rfl
  exact ⟨rfl, rfl, h, by rw [h]; rfl⟩

/-- Claim C1: the grammar input `"A -> B : Yes\nB -> C\n"` does NOT produce
the same model as the direct `create_node`/`create_edge` calls — connection
lines never create their endpoint nodes, so on a fresh graph the very first
line raises (`NodeNotFoundError` wrapped into the line-1 parse error) and
the model stays empty, while the direct sequence builds the three-node,
two-edge model. -/
theorem C1_dsl_diverges_from_direct :
    c1_dsl.1 = .error (.dslParseError "Error parsing line 1: A -> B : Yes") ∧
    c1_dsl.2 = flow0 ∧
    c1_direct.1 = .ok () ∧
    c1_direct.2.nodes.map Prod.fst = ["A", "B", "C"] ∧
    c1_direct.2.edges.map (fun e => (e.from_node, e.to_node, e.label)) =
      [("A", "B", some "Yes"), ("B", "C", none)] := by
  decide

/-- Claim C7: on the claim's own instance (nodes `A`, `B`, edge `A->B`
labeled `"go"`), serialization does not emit the claimed statements at all:
`Edge.to_dot` evaluates `self.style.style.strip()` on an `EdgeStyle` enum
member and raises `AttributeError`, so `to_dot` fails whenever the graph
has at least one edge. -/
theorem C7_serializer_fails_on_edges :
    (dict_get c7_state.nodes "A").isSome = true ∧
    (dict_get c7_state.nodes "B").isSome = true ∧
    c7_state.edges.map (fun e => (e.from_node, e.to_node, e.label)) =
      [("A", "B", some "go")] ∧
    c7_state.to_dot =
      .error (.attributeError "\x27EdgeStyle\x27 object has no attribute \x27strip\x27") := by
  decide

theorem parse_dsl_lines_append (pre : List String) :
    ∀ (s s' : DotInterpreter) (rest : List String) (n : Nat),
    s.parse_dsl_lines pre n = (.ok (), s') →
    s.parse_dsl_lines (pre ++ rest) n = s'.parse_dsl_lines rest (n + pre.length) := by
  induction pre with
  | nil =>
    intro s s' rest n h
    simp only [DotInterpreter.parse_dsl_lines] at h
    have hs : s = s' := congrArg Prod.snd h
    subst hs
    rfl
  | cons l tl ih =>
    intro s s' rest n h
    simp only [List.cons_append]
    simp only [DotInterpreter.parse_dsl_lines] at h ⊢
    by_cases hc : (decide (py_strip l = "") || py_starts_hash (py_strip l)) = true
    · rw [if_pos hc] at h ⊢
      rw [ih s s' rest (n + 1) h]
      congr 1
      simp only [List.length_cons]
      omega
    · rw [if_neg hc] at h ⊢
      split at h
      · rename_i a s1 heq
        rw [ih s1 s' rest (n + 1) h]
        congr 1
        simp only [List.length_cons]
        omega
      · rename_i e s1 heq
        exact absurd (congrArg Prod.fst h) (by simp)

/-- Claim C8 (confirmed): when every earlier line of the (stripped, split)
input has been processed without error and the next line is neither blank
nor a comment and matches none of the three statement forms, the whole
parse aborts with a grammar parse error carrying that line's counter value
and its (stripped) text; the remaining lines are never looked at. -/
theorem C8_unrecognized_line_aborts (s s' : DotInterpreter) (pre : List String)
    (bad : String) (rest : List String) (n : Nat)
    (hpre : s.parse_dsl_lines pre n = (.ok (), s'))
    (hblank : py_strip bad ≠ "") (hcomment : py_starts_hash (py_strip bad) = false)
    (hconn : matchConnection (py_strip bad) = none)
    (hnode : matchNodeDef (py_strip bad) = none)
    (hbare : matchBareWord (py_strip bad) = false) :
    s.parse_dsl_lines (pre ++ bad :: rest) n =
      (.error (.dslParseError ("Error parsing line " ++ toString (n + pre.length) ++ ": " ++ py_strip bad)), s') := by
  rw [parse_dsl_lines_append pre s s' (bad :: rest) n hpre]
  simp only [DotInterpreter.parse_dsl_lines]
  have hc : (decide (py_strip bad = "") || py_starts_hash (py_strip bad)) = false := by
    simp [hblank, hcomment]
  simp only [hc, Bool.false_eq_true, if_false]
  simp only [DotInterpreter.parse_line, hconn, hnode, hbare]
  simp

theorem C8_witness :
    flow0.parse_dsl "A ->" =
      (.error (.dslParseError "Error parsing line 1: A ->"), flow0) := by
  exact C8_unrecognized_line_aborts flow0 flow0 [] "A ->" [] 1 rfl
    (by decide) (by decide) (by decide) (by decide) (by decide)
